import Mathlib

/-!
# Verification of the filtering/aggregation/selection core of `the_plot_thickens`

Shallow embedding of the data-handling core of the dashboard
(`src/heatmap/heatmap.py`, `src/line/line.py`, `src/line/streamlit_app.py`,
`src/streamlit/streamlit_app_with_finished_map.py`).

A pandas dataframe row of the joined risks dataset is modelled as `Row`;
a missing (`NaN`) measurement is `Option.none`; measurement values are `ℚ`
so that sums and means are exact.  A dataframe is a list of rows, together
with (for the line-plot code, which branches on column presence) a flag
recording whether the `measure_name` column exists.
-/

/-- One row of the joined risks dataframe (`RateDALY.csv` merged with
`stateCodes.csv`).  `mapid` is `none` when the state-code lookup failed
(pandas left-merge produces `NaN`); `val` is `none` when the measurement
was not coercible to a number (`pd.to_numeric(..., errors='coerce')`
produced `NaN`).  `measure_name` is meaningful only when the enclosing
frame's `has_measure_name` flag is set. -/
structure Row where
  cause_name : String
  rei_name : String
  location_name : String
  mapid : Option Int
  year : Int
  val : Option ℚ
  measure_name : String
deriving Repr, DecidableEq

/-- A dataframe: its rows plus whether the optional `measure_name` column
is present (the line-plot code tests `"measure_name" in df.columns`). -/
structure DataFrame where
  has_measure_name : Bool
  rows : List Row
deriving Repr, DecidableEq

/-- Embedding of `get_filtered_data(risks_df, selected_risks, year, year_range)`
(`src/heatmap/heatmap.py` lines 79–100, identical in
`src/line/streamlit_app.py` lines 333–354 and
`src/streamlit/streamlit_app_with_finished_map.py` lines 77–86):
keep rows whose `rei_name` is in `selected_risks`; then, `if year is not None`
keep rows with `year == year`, `elif year_range is not None` keep rows with
`year_range[0] <= year <= year_range[1]`, else apply no time restriction.
Pandas boolean-mask selection returns a new frame, so this is a pure
function of the row list. -/
def get_filtered_data (risks_df : List Row) (selected_risks : List String)
    (year : Option Int) (year_range : Option (Int × Int)) : List Row :=
  let filtered := risks_df.filter (fun r => selected_risks.contains r.rei_name)
  match year, year_range with
  | some y, _ => filtered.filter (fun r => r.year == y)
  | none, some p => filtered.filter (fun r => decide (p.1 ≤ r.year) && decide (r.year ≤ p.2))
  | none, none => filtered

/-- Lexicographic comparison of character lists by code point, the order
Python's string comparison uses. -/
def charListLe : List Char → List Char → Bool
  | [], _ => true
  | _ :: _, [] => false
  | c :: cs, d :: ds =>
    if c.val < d.val then true
    else if d.val < c.val then false
    else charListLe cs ds

/-- Python's `<=` on strings: lexicographic by code point. -/
def strLe (a b : String) : Bool :=
  charListLe a.data b.data

/-- Insert a string into a lexicographically ascending list, keeping it
ascending (helper realising Python's `sorted`). -/
def insertSorted (s : String) : List String → List String
  | [] => [s]
  | t :: ts => if strLe s t then s :: t :: ts else t :: insertSorted s ts

/-- Ascending insertion sort on strings (the order produced by Python's
`sorted` on a list of distinct strings). -/
def sortStrings (l : List String) : List String :=
  l.foldr insertSorted []

/-- `sorted(risks_df['cause_name'].unique())`: the distinct cancer types of
the dataset in lexicographic order (`get_cancer_list` /
the first line of `get_default_cancer`). -/
def cancerList (risks_df : List Row) : List String :=
  sortStrings (risks_df.map Row.cause_name).dedup

/-- Embedding of `get_default_cancer` from `src/heatmap/heatmap.py`
lines 71–77 (identical in `src/streamlit/streamlit_app_with_finished_map.py`
lines 70–75): `cancers = sorted(risks_df['cause_name'].unique())`;
`return cancers[1] if len(cancers) > 0 else None`.  Python indexing
`cancers[1]` raises `IndexError` when the list has fewer than two
elements; a raised exception is modelled as `Except.error ()`. -/
def get_default_cancer (risks_df : List Row) : Except Unit (Option String) :=
  let cancers := cancerList risks_df
  if cancers.length > 0 then
    match cancers[1]? with
    | some c => .ok (some c)
    | none => .error ()
  else .ok none

/-- The variant of `get_default_cancer` in `src/line/streamlit_app.py`
lines 59–63, which returns `cancers[0] if len(cancers) > 0 else None`
(the first sorted cancer type, never out of bounds for a non-empty list). -/
def get_default_cancer_line (risks_df : List Row) : Except Unit (Option String) :=
  let cancers := cancerList risks_df
  if cancers.length > 0 then
    match cancers[0]? with
    | some c => .ok (some c)
    | none => .error ()
  else .ok none

/-- The restriction `filtered_data[filtered_data['cause_name'] == selected_cancer]`
applied before the map aggregation. -/
def restrictCancer (filtered : List Row) (selected_cancer : String) : List Row :=
  filtered.filter (fun r => r.cause_name == selected_cancer)

/-- The distinct `(location_name, mapid)` group keys produced by
`groupby(['location_name', 'mapid'])`.  Pandas excludes rows whose group
key contains `NaN`, so rows with `mapid = none` form no group. -/
def mapGroupKeys (rows : List Row) : List (String × Int) :=
  (rows.filterMap (fun r => r.mapid.map (fun m => (r.location_name, m)))).dedup

/-- The rows of one `(location_name, mapid)` group. -/
def groupRows (rows : List Row) (k : String × Int) : List Row :=
  rows.filter (fun r => r.location_name == k.1 && r.mapid == some k.2)

/-- Pandas `agg({'val': 'sum'})`: the sum of the group's `val` entries,
skipping missing (`NaN`) values; an all-missing or empty group sums to 0. -/
def sumValid (rows : List Row) : ℚ :=
  (rows.filterMap Row.val).sum

/-- Embedding of the map aggregation
(`src/streamlit/streamlit_app_with_finished_map.py` lines 369–382,
identical in `src/heatmap/heatmap.py` lines 344–358): restrict the
filtered rows to the selected cancer; `state_counts` = per-group row count
(`groupby(...).size()`, which counts every row, missing `val` included);
`state_sums` = per-group `val` sum (skipping `NaN`); merge on the group
key and set `val = sum / count`.  Each output entry pairs a group key
with its value.  (Pandas orders groups by sorted key; no claim depends on
output order, so keys are listed in first-occurrence order here.) -/
def deaths_ss (filtered : List Row) (selected_cancer : String) :
    List ((String × Int) × ℚ) :=
  let restricted := restrictCancer filtered selected_cancer
  (mapGroupKeys restricted).map (fun k =>
    let g := groupRows restricted k
    (k, sumValid g / (g.length : ℚ)))

/-- The datum list handed to the heatmap chart
(`src/heatmap/heatmap.py` lines 290–307,
`src/streamlit/streamlit_app_with_finished_map.py` lines 283–319):
`alt.Chart(filtered_data).mark_rect().encode(x='rei_name', y='cause_name',
color='val', ...)` — one datum per filtered row, carrying the encoded
`(cause_name, rei_name, val)` fields; no aggregate transform is applied
(the finished-map variant's `transform_impute` adds sentinel rows for
absent `(cause, rei)` pairs but aggregates nothing). -/
def heatmapChartData (filtered : List Row) : List (String × String × Option ℚ) :=
  filtered.map (fun r => (r.cause_name, r.rei_name, r.val))

/-- `df[df["measure_name"] != "Deaths"] if "measure_name" in df.columns`
(`src/line/line.py` lines 35–36, `src/streamlit/streamlit_app_with_finished_map.py`
lines 445–446): drop the `Deaths` rows only when the column exists. -/
def dropDeaths (df : DataFrame) : DataFrame :=
  if df.has_measure_name then
    ⟨df.has_measure_name, df.rows.filter (fun r => r.measure_name ≠ "Deaths")⟩
  else df

/-- The fully filtered row set of `render_lineplot`
(`src/line/line.py` lines 33–55): drop `Deaths` rows when the
`measure_name` column exists, restrict to the selected cancer, restrict
to the selected risk factors, then apply the same `if year / elif
year_range` time predicate as `get_filtered_data`.  The `astype(int)` /
`astype(float)` casts change column dtype, not the (already numeric or
missing) values, so they are identities here. -/
def trendRows (df : DataFrame) (selected_risks : List String)
    (selected_cancer : String) (year : Option Int)
    (year_range : Option (Int × Int)) : List Row :=
  let rows := (dropDeaths df).rows
  let rows := rows.filter (fun r => r.cause_name == selected_cancer)
  let rows := rows.filter (fun r => selected_risks.contains r.rei_name)
  match year, year_range with
  | some y, _ => rows.filter (fun r => r.year == y)
  | none, some p => rows.filter (fun r => decide (p.1 ≤ r.year) && decide (r.year ≤ p.2))
  | none, none => rows

/-- Pandas `groupby(...)["val"].mean()` on one group: the mean of the
group's non-missing `val` entries; `NaN` (here `none`) when the group has
no valid entry. -/
def meanValid (rows : List Row) : Option ℚ :=
  let vs := rows.filterMap Row.val
  if vs.length = 0 then none else some (vs.sum / (vs.length : ℚ))

/-- The distinct `(year, rei_name)` group keys of the trend aggregation. -/
def trendGroupKeys (rows : List Row) : List (Int × String) :=
  (rows.map (fun r => (r.year, r.rei_name))).dedup

/-- Outcome of a detail view: either the "no data for this combination"
guidance message (`st.warning(...)` and early return, no chart), or a
chart built from aggregated data. -/
inductive ViewResult (α : Type) where
  | noData : ViewResult α
  | chart : α → ViewResult α
deriving Repr, DecidableEq

/-- Embedding of `render_lineplot` (`src/line/line.py` lines 7–97,
duplicated in `src/streamlit/streamlit_app_with_finished_map.py`
lines 417–498): filter as in `trendRows`; `if df.empty` warn and return
(no chart); else group by `(year, rei_name)` and take the mean `val`
per group. -/
def render_lineplot (risks_df : DataFrame) (selected_risks : List String)
    (selected_cancer : String) (year : Option Int)
    (year_range : Option (Int × Int)) :
    ViewResult (List ((Int × String) × Option ℚ)) :=
  let rows := trendRows risks_df selected_risks selected_cancer year year_range
  if rows.isEmpty then .noData
  else .chart ((trendGroupKeys rows).map (fun k =>
    (k, meanValid (rows.filter (fun r => r.year == k.1 && r.rei_name == k.2)))))

/-- Embedding of the map view's data path
(`src/streamlit/streamlit_app_with_finished_map.py` lines 360–410):
filter with `get_filtered_data`, aggregate with `deaths_ss`; `if
deaths_ss.empty` warn (no chart); else build the choropleth from the
aggregated frame.  The `dropna(subset=['mapid','val'])` and
`astype(int)` on the non-empty branch drop and change nothing here:
every group key carries a present integer `mapid`, and each group's
`val = sum/count` is a total rational (`count ≥ 1`). -/
def mapView (risks_df : List Row) (selected_risks : List String)
    (year : Option Int) (year_range : Option (Int × Int))
    (selected_cancer : String) : ViewResult (List ((String × Int) × ℚ)) :=
  let filtered := get_filtered_data risks_df selected_risks year year_range
  let ss := deaths_ss filtered selected_cancer
  if ss.isEmpty then .noData else .chart ss

/-- A raw CSV cell of a numeric column before coercion: either it parses
as a number or it is non-numeric text (empty string, stray header token,
etc.). -/
inductive Cell where
  | num : ℚ → Cell
  | str : String → Cell
deriving Repr, DecidableEq

/-- `pd.to_numeric(column, errors='coerce')` on one cell: a parseable
number stays itself, anything else becomes missing (`NaN`) instead of
raising. -/
def toNumeric : Cell → Option ℚ
  | .num q => some q
  | .str _ => none

/-- Embedding of the `year` coercion in `load_data`
(`src/heatmap/heatmap.py` line 63, `src/streamlit/streamlit_app_with_finished_map.py`
line 63): `pd.to_numeric(risks_df['year'], errors='coerce').astype(int)`.
`to_numeric` turns unparseable cells into `NaN`; the chained
`.astype(int)` then raises `IntCastingNaNError` if any `NaN` is present
(modelled as `Except.error ()`), else truncates each number to an
integer. -/
def yearCoerce (column : List Cell) : Except Unit (List Int) :=
  let nums := column.map toNumeric
  if nums.all Option.isSome then .ok (nums.filterMap (Option.map Rat.floor))
  else .error ()

/-- Embedding of the `val` coercion in `load_data` (line 66 of both
variants): `pd.to_numeric(risks_df['val'], errors='coerce')` with no
integer cast — unparseable cells become missing, and the coercion never
raises. -/
def valCoerce (column : List Cell) : List (Option ℚ) :=
  column.map toNumeric

/-- The rows of `risks_df` with every missing `val` replaced by `0`. -/
def zeroFill (rows : List Row) : List Row :=
  rows.map (fun r => { r with val := some (r.val.getD 0) })

/-- `get_filtered_data` with the post-call state of the source frame made
explicit: pandas boolean-mask selection (`df[mask]`) allocates a new
frame, so the function performs no write to `risks_df`; the first
component is the source frame after the call. -/
def get_filtered_data_st (risks_df : List Row) (selected_risks : List String)
    (year : Option Int) (year_range : Option (Int × Int)) :
    List Row × List Row :=
  (risks_df, get_filtered_data risks_df selected_risks year year_range)

/-- `render_lineplot` with the post-call state of the source frame made
explicit: the function's first statement is `df = risks_df.copy()`, and
the only in-place writes in the whole pipeline
(`df["year"] = df["year"].astype(int)`, `df["val"] = df["val"].astype(float)`)
target that copy; every other step is a mask selection or a `groupby`
aggregation, each of which returns a new frame.  The first component is
the source frame after the call. -/
def render_lineplot_st (risks_df : DataFrame) (selected_risks : List String)
    (selected_cancer : String) (year : Option Int)
    (year_range : Option (Int × Int)) :
    DataFrame × ViewResult (List ((Int × String) × Option ℚ)) :=
  (risks_df, render_lineplot risks_df selected_risks selected_cancer year year_range)

/-! ## Concrete data used by witnesses and counterexamples -/

/-- A Lung/Tobacco row with a present measurement of 10. -/
def rowTobacco10 : Row := ⟨"Lung", "Tobacco", "Alabama", some 1, 2010, some 10, ""⟩

/-- A Lung/Tobacco row with a present measurement of 20. -/
def rowTobacco20 : Row := ⟨"Lung", "Tobacco", "Alabama", some 1, 2010, some 20, ""⟩

/-- A Lung/Tobacco row whose measurement failed coercion (`val` missing). -/
def rowTobaccoMissing : Row := ⟨"Lung", "Tobacco", "Alabama", some 1, 2010, none, ""⟩

/-- A row of the single-cancer-type dataset `["Bladder"]`. -/
def rowBladder : Row := ⟨"Bladder", "Tobacco", "Alabama", some 1, 2010, some 10, ""⟩

/-- A second cancer type, so that `["Bladder", "Breast"]` sorts with
`"Breast"` at index 1. -/
def rowBreast : Row := ⟨"Breast", "Tobacco", "Alabama", some 1, 2010, some 20, ""⟩

/-! ## Helper lemmas -/

/-- `zeroFill` commutes with the cancer restriction (the filter reads only
`cause_name`, which `zeroFill` leaves unchanged). -/
theorem restrictCancer_zeroFill (l : List Row) (c : String) :
    restrictCancer (zeroFill l) c = zeroFill (restrictCancer l c) := by
  induction l with
  | nil => rfl
  | cons r t ih =>
    by_cases h : (r.cause_name == c) = true <;>
      simp [restrictCancer, zeroFill, List.filter_cons, h] at ih ⊢ <;>
      simpa using ih

/-- `zeroFill` changes no `location_name` or `mapid`, hence no group keys. -/
theorem mapGroupKeys_zeroFill (l : List Row) :
    mapGroupKeys (zeroFill l) = mapGroupKeys l := by
  have h : (zeroFill l).filterMap (fun r => r.mapid.map (fun m => (r.location_name, m)))
      = l.filterMap (fun r => r.mapid.map (fun m => (r.location_name, m))) := by
    induction l with
    | nil => rfl
    | cons r t ih =>
      cases hm : r.mapid <;>
        simp [zeroFill, List.filterMap_cons, hm] at ih ⊢ <;>
        simpa using ih
  simp only [mapGroupKeys, h]

/-- `zeroFill` commutes with group extraction (the group filter reads only
`location_name` and `mapid`). -/
theorem groupRows_zeroFill (l : List Row) (k : String × Int) :
    groupRows (zeroFill l) k = zeroFill (groupRows l k) := by
  induction l with
  | nil => rfl
  | cons r t ih =>
    by_cases h : (r.location_name == k.1 && r.mapid == some k.2) = true <;>
      simp [groupRows, zeroFill, List.filter_cons, h] at ih ⊢ <;>
      simpa using ih

/-- Replacing missing measurements by `0` does not change the skipping sum. -/
theorem sumValid_zeroFill (l : List Row) : sumValid (zeroFill l) = sumValid l := by
  induction l with
  | nil => rfl
  | cons r t ih =>
    cases h : r.val <;>
      simp [sumValid, zeroFill, List.filterMap_cons, h] at ih ⊢ <;>
      simpa using ih

/-- `zeroFill` preserves the row count. -/
theorem length_zeroFill (l : List Row) : (zeroFill l).length = l.length :=
  List.length_map l _

/-- Rows with a missing `val` contribute nothing to `filterMap Row.val`. -/
theorem filterMap_val_filter_isSome (l : List Row) :
    (l.filter (fun r => r.val.isSome)).filterMap Row.val = l.filterMap Row.val := by
  induction l with
  | nil => rfl
  | cons r t ih =>
    cases h : r.val <;> simp [List.filter_cons, List.filterMap_cons, h, ih]

/-! ## Claim theorems -/

/-- C1: every row returned by `get_filtered_data` for a non-empty risk
selection satisfies both filter predicates — its `rei_name` is among
`selected_risks`, and its year equals the given single year when one is
supplied, respectively lies inclusively between the bounds when a year
range is supplied. -/
theorem c1_filtered_rows_satisfy_predicates (df : List Row) (sr : List String)
    (hsr : sr ≠ []) (y a b : Int) :
    (∀ r ∈ get_filtered_data df sr (some y) none, r.rei_name ∈ sr ∧ r.year = y) ∧
    (∀ r ∈ get_filtered_data df sr none (some (a, b)),
      r.rei_name ∈ sr ∧ a ≤ r.year ∧ r.year ≤ b) := by
  refine ⟨fun r hr => ?_, fun r hr => ?_⟩
  · simp only [get_filtered_data, List.mem_filter, beq_iff_eq] at hr
    exact ⟨by simpa using hr.1.2, hr.2⟩
  · simp only [get_filtered_data, List.mem_filter, Bool.and_eq_true,
      decide_eq_true_eq] at hr
    exact ⟨by simpa using hr.1.2, hr.2⟩

/-- Witness for C1 at a concrete dataset, risk selection, year and range. -/
theorem c1_filtered_rows_satisfy_predicates_witness :
    (["Tobacco"] : List String) ≠ [] ∧
    (∀ r ∈ get_filtered_data [rowTobacco10] ["Tobacco"] (some 2010) none,
      r.rei_name ∈ ["Tobacco"] ∧ r.year = 2010) ∧
    (∀ r ∈ get_filtered_data [rowTobacco10] ["Tobacco"] none (some (1995, 2015)),
      r.rei_name ∈ ["Tobacco"] ∧ 1995 ≤ r.year ∧ r.year ≤ 2015) := by
  have h := c1_filtered_rows_satisfy_predicates [rowTobacco10] ["Tobacco"]
    (by simp) 2010 1995 2015
  exact ⟨by simp, h.1, h.2⟩

/-- C2 (evaluation at the failing input): on a dataset whose single
distinct cancer type is `"Bladder"`, `get_default_cancer` raises
`IndexError` — `len(cancers) > 0` passes but `cancers[1]` is out of
bounds — instead of returning `"Bladder"` as the claim states.  With at
least two types it does return the second sorted type, and on an empty
dataset `None`; the `src/line/streamlit_app.py` variant returns the
first sorted type instead of the second. -/
theorem c2_singleton_default_raises :
    get_default_cancer [rowBladder] = .error () ∧
    get_default_cancer [rowBladder, rowBreast] = .ok (some "Breast") ∧
    get_default_cancer [] = .ok none ∧
    get_default_cancer_line [rowBladder] = .ok (some "Bladder") :=
  ⟨rfl, rfl, rfl, rfl⟩

/-- C7 (evaluation at the failing input): a `year` cell that fails numeric
coercion becomes `NaN` under `to_numeric(errors='coerce')`, and the
chained `.astype(int)` then raises, aborting the load — the failure does
not become a missing value.  The `val` coercion, which has no integer
cast, does turn unparseable cells (such as the empty string) into missing
values without raising. -/
theorem c7_year_coercion_raises :
    yearCoerce [Cell.str "abc"] = .error () ∧
    yearCoerce [Cell.num 1990, Cell.str "abc"] = .error () ∧
    valCoerce [Cell.str "", Cell.num 3] = [none, some 3] :=
  ⟨rfl, rfl, rfl⟩

/-- C9: neither `get_filtered_data` nor the downstream line-plot pipeline
writes to the source dataframe: the post-call source frame (first
component of the state-threaded embeddings) is the frame passed in,
unchanged in every row and column. -/
theorem c9_source_dataset_not_mutated (risks_df : List Row) (df : DataFrame)
    (sr : List String) (c : String) (y : Option Int) (yr : Option (Int × Int)) :
    (get_filtered_data_st risks_df sr y yr).1 = risks_df ∧
    (render_lineplot_st df sr c y yr).1 = df :=
  ⟨rfl, rfl⟩

/-- C10: when both a single year and a year range are supplied,
`get_filtered_data` applies only the single-year equality predicate (the
range argument is ignored); when both are `None`, no time restriction is
applied and the result is exactly the risk-factor filter of the dataset. -/
theorem c10_time_argument_precedence (df : List Row) (sr : List String)
    (hsr : sr ≠ []) (y : Int) (p : Int × Int) :
    get_filtered_data df sr (some y) (some p)
        = get_filtered_data df sr (some y) none ∧
    get_filtered_data df sr (some y) (some p)
        = (df.filter (fun r => sr.contains r.rei_name)).filter
            (fun r => r.year == y) ∧
    get_filtered_data df sr none none
        = df.filter (fun r => sr.contains r.rei_name) :=
  ⟨rfl, rfl, rfl⟩

/-- Witness for C10 at a concrete dataset, year and range. -/
theorem c10_time_argument_precedence_witness :
    (["Tobacco"] : List String) ≠ [] ∧
    get_filtered_data [rowTobacco10] ["Tobacco"] (some 2010) (some (1995, 2015))
        = get_filtered_data [rowTobacco10] ["Tobacco"] (some 2010) none ∧
    get_filtered_data [rowTobacco10] ["Tobacco"] none none
        = [rowTobacco10].filter (fun r => ["Tobacco"].contains r.rei_name) := by
  have h := c10_time_argument_precedence [rowTobacco10] ["Tobacco"]
    (by simp) 2010 (1995, 2015)
  exact ⟨by simp, h.1, h.2.2⟩

/-- C3 (counterexample): in the map aggregation a missing `val` does
count in the mean's denominator — the single group of a row with `val`
10 and a row with `val` missing gets `10 / 2 = 5`, exactly as if the
missing value were zero, not the `10` the claim requires; and a group
all of whose rows have missing `val` is reported with value `0`, not
omitted from the output. -/
theorem c3_missing_val_counts_in_map_denominator :
    deaths_ss [rowTobacco10, rowTobaccoMissing] "Lung" = [(("Alabama", 1), 5)] ∧
    (5 : ℚ) ≠ 10 ∧
    deaths_ss [rowTobaccoMissing] "Lung" = [(("Alabama", 1), 0)] := by
  refine ⟨?_, by norm_num, ?_⟩
  · simp [deaths_ss, restrictCancer, mapGroupKeys, groupRows, sumValid,
      rowTobacco10, rowTobaccoMissing]
    norm_num
  · simp [deaths_ss, restrictCancer, mapGroupKeys, groupRows, sumValid,
      rowTobaccoMissing]

/-- C3 (amended): the trend aggregation's group means ignore rows with a
missing `val` (dropping those rows from a group leaves `meanValid`, the
mean used by `render_lineplot`, unchanged — they enter neither numerator
nor denominator, and a group with no valid value gets a missing mean,
not zero).  The map aggregation instead treats a missing `val` as zero:
replacing every missing `val` by `0` leaves its entire output unchanged,
so missing rows inflate the denominator and an all-missing group is
reported as `0`.  The heatmap computes no mean at all (see C5). -/
theorem c3_amended_missing_val_handling :
    (∀ rows : List Row,
      meanValid (rows.filter (fun r => r.val.isSome)) = meanValid rows) ∧
    (∀ (rows : List Row) (c : String), deaths_ss (zeroFill rows) c = deaths_ss rows c) := by
  constructor
  · intro rows
    simp [meanValid, filterMap_val_filter_isSome]
  · intro rows c
    simp only [deaths_ss, restrictCancer_zeroFill, mapGroupKeys_zeroFill,
      groupRows_zeroFill, sumValid_zeroFill, length_zeroFill]

/-- C4: every entry of the map aggregation's output carries the value
`sum(val) / count(rows)` of its `(location_name, mapid)` group, and a
group consisting of exactly one row with a present `val` yields exactly
that row's `val`. -/
theorem c4_map_mean_is_sum_over_count (filtered : List Row) (c : String) :
    (∀ k v, (k, v) ∈ deaths_ss filtered c →
      v = sumValid (groupRows (restrictCancer filtered c) k) /
          ((groupRows (restrictCancer filtered c) k).length : ℚ)) ∧
    (∀ k v r x, (k, v) ∈ deaths_ss filtered c →
      groupRows (restrictCancer filtered c) k = [r] → r.val = some x → v = x) := by
  have h1 : ∀ k v, (k, v) ∈ deaths_ss filtered c →
      v = sumValid (groupRows (restrictCancer filtered c) k) /
          ((groupRows (restrictCancer filtered c) k).length : ℚ) := by
    intro k v hkv
    simp only [deaths_ss, List.mem_map, Prod.mk.injEq] at hkv
    obtain ⟨k', _, hk, hv⟩ := hkv
    subst hk
    exact hv.symm
  refine ⟨h1, fun k v r x hkv hg hx => ?_⟩
  have := h1 k v hkv
  rw [hg] at this
  simp [sumValid, hx] at this
  simpa using this

/-- Witness for C4: applying the theorem to the one-row dataset
`[rowTobacco10]`, whose single group is `[rowTobacco10]` with value 10. -/
theorem c4_map_mean_is_sum_over_count_witness :
    (10 : ℚ) = sumValid (groupRows (restrictCancer [rowTobacco10] "Lung") ("Alabama", 1)) /
        ((groupRows (restrictCancer [rowTobacco10] "Lung") ("Alabama", 1)).length : ℚ) ∧
    (10 : ℚ) = 10 := by
  have hmem : ((("Alabama", 1), (10 : ℚ))) ∈ deaths_ss [rowTobacco10] "Lung" := by
    simp [deaths_ss, restrictCancer, mapGroupKeys, groupRows, sumValid, rowTobacco10]
  have h := c4_map_mean_is_sum_over_count [rowTobacco10] "Lung"
  exact ⟨h.1 ("Alabama", 1) 10 hmem,
    h.2 ("Alabama", 1) 10 rowTobacco10 10 hmem (by decide) rfl⟩

/-- C5 (counterexample): the heatmap performs no `(cause_name, rei_name)`
aggregation — the two filtered rows of the spec's scenario are passed to
the chart as two data, not combined into a single row with the mean 15. -/
theorem c5_heatmap_rows_not_aggregated :
    heatmapChartData [rowTobacco10, rowTobacco20]
        = [("Lung", "Tobacco", some 10), ("Lung", "Tobacco", some 20)] ∧
    heatmapChartData [rowTobacco10, rowTobacco20]
        ≠ [("Lung", "Tobacco", some 15)] := by
  refine ⟨rfl, fun h => ?_⟩
  simpa [heatmapChartData] using congrArg List.length h

/-- C5 (amended): the heatmap chart receives the filtered rows
unaggregated — one datum per input row, each carrying that row's
`(cause_name, rei_name, val)`; any combining of duplicate cells happens
in the excluded rendering layer, not in this code. -/
theorem c5_amended_heatmap_passes_rows_through (rows : List Row) :
    (heatmapChartData rows).length = rows.length ∧
    ∀ t ∈ heatmapChartData rows, ∃ r ∈ rows, t = (r.cause_name, r.rei_name, r.val) := by
  refine ⟨List.length_map rows _, fun t ht => ?_⟩
  simp only [heatmapChartData, List.mem_map] at ht
  obtain ⟨r, hr, rfl⟩ := ht
  exact ⟨r, hr, rfl⟩

/-- Witness for C5's amended statement on a one-row input. -/
theorem c5_amended_heatmap_passes_rows_through_witness :
    (heatmapChartData [rowTobacco10]).length = 1 ∧
    ∃ r ∈ [rowTobacco10],
      ("Lung", "Tobacco", (some 10 : Option ℚ)) = (r.cause_name, r.rei_name, r.val) := by
  have h := c5_amended_heatmap_passes_rows_through [rowTobacco10]
  exact ⟨h.1, h.2 ("Lung", "Tobacco", some 10) (by simp [heatmapChartData, rowTobacco10])⟩

/-- Filtering by a predicate the row satisfies does not change how many
times the row occurs. -/
theorem count_filter_of_pos {p : Row → Bool} (l : List Row) (r : Row)
    (h : p r = true) : (l.filter p).count r = l.count r := by
  induction l with
  | nil => rfl
  | cons a t ih =>
    by_cases ha : p a = true
    · simp [List.filter_cons, ha, List.count_cons, ih]
    · have hne : ¬a = r := fun he => ha (he ▸ h)
      simp [List.filter_cons, ha, List.count_cons, hne, ih]

/-- C6: the trend pipeline's measure step removes exactly the rows whose
`measure_name` is `"Deaths"` when that column is present (a `"Deaths"`
row occurs zero times afterwards; any other row keeps its multiplicity),
and leaves the frame untouched when the column is absent. -/
theorem c6_trend_deaths_filter (df : DataFrame) (r : Row) :
    (df.has_measure_name = true →
      (dropDeaths df).rows.count r
        = if r.measure_name = "Deaths" then 0 else df.rows.count r) ∧
    (df.has_measure_name = false → dropDeaths df = df) := by
  constructor
  · intro h
    by_cases hd : r.measure_name = "Deaths"
    · rw [if_pos hd]
      simp only [dropDeaths, h, if_true]
      rw [List.count_eq_zero]
      intro hmem
      rw [List.mem_filter] at hmem
      exact absurd hd (by simpa using hmem.2)
    · rw [if_neg hd]
      simp only [dropDeaths, h, if_true]
      exact count_filter_of_pos _ _ (by simpa using hd)
  · intro h
    simp [dropDeaths, h]

/-- Witness for C6 on a one-row frame, with and without the column. -/
theorem c6_trend_deaths_filter_witness :
    (dropDeaths ⟨true, [rowTobacco10]⟩).rows.count rowTobacco10
      = (if rowTobacco10.measure_name = "Deaths" then 0
         else (⟨true, [rowTobacco10]⟩ : DataFrame).rows.count rowTobacco10) ∧
    dropDeaths ⟨false, [rowTobacco10]⟩ = ⟨false, [rowTobacco10]⟩ :=
  ⟨(c6_trend_deaths_filter ⟨true, [rowTobacco10]⟩ rowTobacco10).1 rfl,
   (c6_trend_deaths_filter ⟨false, [rowTobacco10]⟩ rowTobacco10).2 rfl⟩

/-- C8: when the restricted-and-filtered row set of a detail view is
empty, the view signals the distinct no-data outcome (`ViewResult.noData`,
the guidance-message branch) and builds no chart — for the map view when
the cancer-restricted filtered set is empty, and for the trend view when
its fully filtered set is empty. -/
theorem c8_empty_detail_view_signals_no_data (risks_df : List Row)
    (df : DataFrame) (sr : List String) (y : Option Int)
    (yr : Option (Int × Int)) (c : String)
    (hmap : restrictCancer (get_filtered_data risks_df sr y yr) c = [])
    (htrend : trendRows df sr c y yr = []) :
    mapView risks_df sr y yr c = .noData ∧
    render_lineplot df sr c y yr = .noData := by
  constructor
  · simp [mapView, deaths_ss, hmap, mapGroupKeys]
  · simp [render_lineplot, htrend]

/-- Witness for C8 on an empty dataset. -/
theorem c8_empty_detail_view_signals_no_data_witness :
    restrictCancer (get_filtered_data [] ["Tobacco"] none none) "Lung" = [] ∧
    trendRows ⟨false, []⟩ ["Tobacco"] "Lung" none none = [] ∧
    mapView [] ["Tobacco"] none none "Lung" = .noData ∧
    render_lineplot ⟨false, []⟩ ["Tobacco"] "Lung" none none = .noData := by
  have h := c8_empty_detail_view_signals_no_data [] ⟨false, []⟩ ["Tobacco"]
    none none "Lung" rfl rfl
  exact ⟨rfl, rfl, h.1, h.2⟩
